import Mathlib

/-!
Shallow embedding of `robusta_krr/core/integrations/prometheus.py`.

The file models:
* `PrometheusLoader.__init__` (lines 59-93) — URL resolution, auth-header
  selection, session creation and the liveness check;
* `PrometheusLoader._check_prometheus_connection` (lines 95-108);
* `PrometheusLoader.gather_data` (lines 110-161) — query dispatch on the
  resource type, per-pod range queries, and the reshape of raw backend
  results into the per-pod sample map.

External collaborators (the Kubernetes client, the `requests` session, the
Prometheus backend) are modelled as explicit inputs: the backend is a
function from a pod name to the outcome of its range query, the liveness
probe outcome is a parameter, and network activity is recorded as an event
trace so that "no network call is issued" becomes a statement about the
trace.

Python `Decimal(value)` applied to the value strings of the backend's
`values` arrays is modelled by `pyDecimal`, an exact parser of Python's
documented numeric-string grammar (sign, digits, optional fractional part,
optional exponent) into `ℚ`; the non-finite specials (`NaN`, `Infinity`)
and whitespace/underscore stripping are outside the model, as no claim
touches them. Durations (`datetime.timedelta`) are modelled as non-negative
microsecond counts, matching `timedelta`'s internal resolution.
-/

namespace KRR

/-- `ResourceType` enum (defined outside this file's source, in
`robusta_krr.core.models.result`). `gather_data` dispatches on equality with
`ResourceType.CPU` and `ResourceType.Memory` and reaches an `else` branch on
any other value; the `Other` constructor represents such values. -/
inductive ResourceType
  | CPU
  | Memory
  | Other (name : String)
deriving DecidableEq, Repr

/-- One time series returned by `custom_query_range`: we keep only the
`values` field, a list of `[timestamp, value]` pairs with the value a
string, which is all that `gather_data` reads from a series. -/
structure Series where
  values : List (Int × String)
deriving DecidableEq, Repr

/-- Workload description (`K8sObjectData`, defined outside this file's
source): namespace, container name and the ordered pod-name list.
`namespace_` stands for the `namespace` attribute (a Lean keyword). -/
structure K8sObjectData where
  namespace_ : String
  container : String
  pods : List String
deriving DecidableEq, Repr

/-- A failure of one per-pod range query (a `requests`/transport exception
raised inside `custom_query_range`). -/
inductive QueryError
  | timeout
  | httpError (status : Nat)
  | other (msg : String)
deriving DecidableEq, Repr

/-- Failures `gather_data` can raise. `invalidResourceType` is the
`ValueError("Unknown resource type: ...")` of line 151; `queryFailure` is a
backend exception propagated by `asyncio.gather`; `decimalError` is
`decimal.InvalidOperation` from `Decimal(value)` on a malformed string. -/
inductive GatherError
  | invalidResourceType (resource : ResourceType)
  | queryFailure (e : QueryError)
  | decimalError (s : String)
deriving DecidableEq, Repr

/-- Network events emitted by `gather_data`: one range query per pod, with
the query string and the `step` parameter that are sent. -/
inductive Event
  | rangeQuery (query : String) (step : String)
deriving DecidableEq, Repr

/-! ### Python dict semantics

Python dicts preserve insertion order; writing an existing key updates its
value in place. The dict comprehensions of lines 154, 156 and 157-161 are
modelled as ordered association lists built by `pyDict`. -/

/-- Insert `(k, v)` into an ordered association list with Python-dict
semantics: an existing key keeps its position and gets the new value, a new
key is appended. -/
def dictInsert (l : List (String × α)) (k : String) (v : α) : List (String × α) :=
  if l.any (fun p => p.1 = k) then
    l.map (fun p => if p.1 = k then (k, v) else p)
  else
    l ++ [(k, v)]

/-- Build a Python dict (ordered association list) from a sequence of
key/value pairs, later pairs overwriting earlier ones. -/
def pyDict (pairs : List (String × α)) : List (String × α) :=
  pairs.foldl (fun d p => dictInsert d p.1 p.2) []

/-! ### Python `Decimal` on numeric strings -/

/-- Longest digit prefix of a character list, with the remainder. -/
def splitDigits : List Char → List Char × List Char
  | [] => ([], [])
  | c :: cs =>
    if c.isDigit then
      let (d, r) := splitDigits cs
      (c :: d, r)
    else ([], c :: cs)

/-- Value of a digit string, most significant digit first. -/
def digitsToNat (cs : List Char) : Nat :=
  cs.foldl (fun a c => a * 10 + (c.toNat - 48)) 0

/-- Parse Python's `decimal-part`: `digits [. digits] | . digits`.
Returns the exact rational significand and the unconsumed characters. -/
def parseDecimalPart (cs : List Char) : Option (ℚ × List Char) :=
  let (ip, rest) := splitDigits cs
  match rest with
  | '.' :: rest2 =>
    let (fp, rest3) := splitDigits rest2
    if ip = [] ∧ fp = [] then none
    else some ((digitsToNat ip : ℚ) + (digitsToNat fp : ℚ) / ((10 ^ fp.length : ℕ) : ℚ), rest3)
  | _ => if ip = [] then none else some ((digitsToNat ip : ℚ), rest)

/-- Exact value of a power of ten with integer exponent. -/
def powTen (e : Int) : ℚ :=
  if 0 ≤ e then ((10 ^ e.toNat : ℕ) : ℚ) else 1 / ((10 ^ (-e).toNat : ℕ) : ℚ)

/-- Parse an optional `exponent-part`: `('e'|'E') [sign] digits`; absent
exponent is `0`. Returns the exponent and the unconsumed characters. -/
def parseExponent (cs : List Char) : Option (Int × List Char) :=
  match cs with
  | [] => some (0, [])
  | c :: rest =>
    if c = 'e' ∨ c = 'E' then
      match rest with
      | '+' :: r2 =>
        let (d, r3) := splitDigits r2
        if d = [] then none else some ((digitsToNat d : Int), r3)
      | '-' :: r2 =>
        let (d, r3) := splitDigits r2
        if d = [] then none else some (-(digitsToNat d : Int), r3)
      | r2 =>
        let (d, r3) := splitDigits r2
        if d = [] then none else some ((digitsToNat d : Int), r3)
    else some (0, c :: rest)

/-- Exact value of Python `Decimal(s)` for a finite numeric string
`[sign] decimal-part [exponent-part]`; `none` when `Decimal` would raise
`InvalidOperation` (non-finite specials are outside the model). -/
def pyDecimal (s : String) : Option ℚ :=
  let cs := s.toList
  let signAndRest : ℚ × List Char :=
    match cs with
    | '+' :: r => (1, r)
    | '-' :: r => (-1, r)
    | _ => (1, cs)
  match parseDecimalPart signAndRest.2 with
  | none => none
  | some (m, rest) =>
    match parseExponent rest with
    | none => none
    | some (e, rest2) =>
      if rest2 = [] then some (signAndRest.1 * m * powTen e) else none

/-! ### Query construction and the step parameter -/

/-- CPU query f-string of line 126. -/
def cpuQuery (object : K8sObjectData) (pod : String) : String :=
  "sum(namespace_pod_name_container_name:container_cpu_usage_seconds_total:sum_rate\x7bcontainer_name=\""
    ++ object.container ++ "\", namespace=\"" ++ object.namespace_
    ++ "\", pod_name=\"" ++ pod ++ "\"\x7d)"

/-- Memory query f-string of line 141. -/
def memoryQuery (object : K8sObjectData) (pod : String) : String :=
  "sum(container_memory_working_set_bytes\x7bjob=\"kubelet\", metrics_path=\"/metrics/cadvisor\", image!=\"\", namespace=\""
    ++ object.namespace_ ++ "\", pod_name=\"" ++ pod
    ++ "\", container_name=\"" ++ object.container ++ "\"\x7d)"

/-- The `step` parameter of lines 130/145:
`f"{int(timeframe.total_seconds()) // 60}m"`, with the timeframe given in
microseconds (`total_seconds()` is microseconds over 10^6, and `int`
truncates, which on a non-negative duration is Nat division). -/
def stepStr (timeframeMicros : Nat) : String :=
  toString (timeframeMicros / 1000000 / 60) ++ "m"

/-! ### gather_data -/

/-- `asyncio.gather` over the per-pod query outcomes: results in argument
order, or the propagated exception when one query failed (the concrete
failing query whose exception surfaces first is completion-order dependent;
the model deterministically surfaces the first in list order). -/
def collect : List (Except QueryError (List Series)) → Except QueryError (List (List Series))
  | [] => .ok []
  | .error e :: _ => .error e
  | .ok x :: rest => (collect rest).map (fun l => x :: l)

/-- `pod_result[0]["values"]` of line 158. Call sites are guarded by the
`if pod_result != []` filter of line 160 (on `[]`, `pod_result[0]` would
raise `IndexError`), so the `[]` branch is unreachable there. -/
def seriesFirstValues : List Series → List (Int × String)
  | [] => []
  | s :: _ => s.values

/-- `[Decimal(value) for _, value in ...]` of line 158: parse each value
component left to right, dropping timestamps; the first malformed string
raises. -/
def decimalList : List (Int × String) → Except GatherError (List ℚ)
  | [] => .ok []
  | tv :: rest =>
    match pyDecimal tv.2 with
    | some q => (decimalList rest).map (fun l => q :: l)
    | none => .error (GatherError.decimalError tv.2)

/-- The body of the dict comprehension of lines 157-161, iterating the
(already filtered) items left to right: pair each pod with the decimal
values of its first series, the first conversion error raising. -/
def extractAll : List (String × List Series) → Except GatherError (List (String × List ℚ))
  | [] => .ok []
  | pr :: rest =>
    match decimalList (seriesFirstValues pr.2) with
    | .ok vs => (extractAll rest).map (fun l => (pr.1, vs) :: l)
    | .error e => .error e

/-- Lines 153-161: the reshape of the batch result into the returned
mapping. `results` is the list returned by `asyncio.gather`, aligned with
`pods` by position. -/
def reshape (pods : List String) (results : List (List Series)) :
    Except GatherError (List (String × List ℚ)) :=
  if results = [] then
    .ok (pyDict (pods.map (fun pod => (pod, ([] : List ℚ)))))
  else
    let podResults := pyDict (pods.zip results)
    (extractAll (podResults.filter (fun pr => pr.2 ≠ []))).map pyDict

/-- The per-branch body of lines 121-134 / 136-149: fan out one range query
per pod (all queries are issued; `asyncio.gather` does not cancel in-flight
siblings on a failure), join, then reshape. -/
def runQueries (mkQuery : String → String) (backend : String → Except QueryError (List Series))
    (pods : List String) (timeframeMicros : Nat) :
    Except GatherError (List (String × List ℚ)) × List Event :=
  let events := pods.map (fun pod => Event.rangeQuery (mkQuery pod) (stepStr timeframeMicros))
  match collect (pods.map backend) with
  | .error e => (.error (.queryFailure e), events)
  | .ok results => (reshape pods results, events)

/-- `PrometheusLoader.gather_data` (lines 110-161). `backend` maps a pod
name to the outcome of its `custom_query_range` call; the second component
is the trace of range queries issued. `periodMicros` only positions the
`start_time`/`end_time` window relative to `now` and does not affect the
returned data. -/
def gather_data (backend : String → Except QueryError (List Series))
    (object : K8sObjectData) (resource : ResourceType)
    (periodMicros timeframeMicros : Nat) :
    Except GatherError (List (String × List ℚ)) × List Event :=
  match resource with
  | .CPU => runQueries (cpuQuery object) backend object.pods timeframeMicros
  | .Memory => runQueries (memoryQuery object) backend object.pods timeframeMicros
  | r => (.error (.invalidResourceType r), [])

/-! ### PrometheusLoader.__init__ and the liveness check -/

/-- The configuration fields `__init__` reads (`robusta_krr.core.models.config.Config`,
defined outside this file's source). Optional strings keep Python's
`Optional[str]`. -/
structure Config where
  prometheus_url : Option String
  prometheus_auth_header : Option String
  prometheus_ssl_enabled : Bool
  inside_cluster : Bool
deriving DecidableEq, Repr

/-- Python truthiness of an `Optional[str]`: `None` and `""` are falsy. -/
def truthyStr : Option String → Bool
  | none => false
  | some s => s ≠ ""

/-- Outcome of the liveness probe's HTTP GET (line 97): either a
`requests.exceptions.ConnectionError`, or a response with a status code.
`raise_for_status` (line 104) raises `HTTPError` exactly for client-error
and server-error codes, `400 ≤ status < 600`. -/
inductive ConnOutcome
  | connError (msg : String)
  | response (status : Nat)
deriving DecidableEq, Repr

/-- The cause attached (`raise ... from e`, line 108) to the
`PrometheusNotFound` raised by the liveness check. -/
inductive CheckCause
  | connectionError (msg : String)
  | httpError (status : Nat)
deriving DecidableEq, Repr

/-- Exceptions `__init__` can raise. `prometheusNotFound none` is the
URL-scan failure of lines 78-81 (no `from e` clause); `prometheusNotFound
(some c)` is the liveness failure of lines 105-108 carrying its cause;
`attributeErrorNone` is the `AttributeError` from calling
`update_params_for_auth` on `self.api_client = None` (line 88). -/
inductive InitError
  | prometheusNotFound (cause : Option CheckCause)
  | attributeErrorNone
deriving DecidableEq, Repr

/-- Events of construction: the HTTP session being created (line 90,
`CustomPrometheusConnect.__init__`, lines 53-55) and the liveness probe
request (line 97). -/
inductive InitEvent
  | sessionCreated
  | livenessQuery
deriving DecidableEq, Repr

/-- The constructed loader state the claims observe. -/
structure Client where
  url : String
  headers : List (String × String)
  ssl_enabled : Bool
deriving DecidableEq, Repr

/-- Lines 75-76: `self.url = self.config.prometheus_url` then
`self.url = self.url or self.prometheus_discovery.find_prometheus_url(...)`.
`discovered` is the (external) discovery result. -/
def resolvedUrl (config : Config) (discovered : Option String) : Option String :=
  if truthyStr config.prometheus_url then config.prometheus_url else discovered

/-- Lines 83-88: auth-header selection. `apiClientPresent` is whether
`self.api_client` is non-`None` (line 72: a client exists iff a cluster
name was supplied); `bearerHeaders` is the (external) result of
`update_params_for_auth` when it is reachable. -/
def buildHeaders (config : Config) (apiClientPresent : Bool)
    (bearerHeaders : List (String × String)) : Except InitError (List (String × String)) :=
  if truthyStr config.prometheus_auth_header then
    .ok [("Authorization", config.prometheus_auth_header.getD "")]
  else if !config.inside_cluster then
    if apiClientPresent then .ok bearerHeaders else .error .attributeErrorNone
  else .ok []

/-- `PrometheusLoader._check_prometheus_connection` (lines 95-108): a
connection error or an error status from `raise_for_status` becomes
`PrometheusNotFound` carrying the original exception as its cause. -/
def checkPrometheusConnection (conn : ConnOutcome) : Except InitError Unit :=
  match conn with
  | .connError m => .error (.prometheusNotFound (some (.connectionError m)))
  | .response s =>
    if 400 ≤ s ∧ s < 600 then .error (.prometheusNotFound (some (.httpError s)))
    else .ok ()

/-- `PrometheusLoader.__init__` (lines 59-93): resolve the URL (raising
`PrometheusNotFound` when none, before the session exists), build auth
headers, create the session, run the liveness check. `cluster` is the
optional cluster name; `conn` the probe outcome. The second component is
the trace of construction events. -/
def clientInit (config : Config) (cluster : Option String) (discovered : Option String)
    (bearerHeaders : List (String × String)) (conn : ConnOutcome) :
    Except InitError Client × List InitEvent :=
  let url := resolvedUrl config discovered
  if truthyStr url then
    match buildHeaders config cluster.isSome bearerHeaders with
    | .error e => (.error e, [])
    | .ok headers =>
      match checkPrometheusConnection conn with
      | .error e => (.error e, [.sessionCreated, .livenessQuery])
      | .ok _ =>
        (.ok ⟨url.getD "", headers, config.prometheus_ssl_enabled⟩,
          [.sessionCreated, .livenessQuery])
  else (.error (.prometheusNotFound none), [])

/-! ### Helper lemmas -/

lemma collect_map_ok (backend : String → Except QueryError (List Series))
    (resOf : String → List Series) :
    ∀ pods : List String, (∀ p ∈ pods, backend p = Except.ok (resOf p)) →
      collect (pods.map backend) = Except.ok (pods.map resOf) := by
  intro pods
  induction pods with
  | nil => intro _; rfl
  | cons p rest ih =>
    intro h
    have hp := h p (List.mem_cons_self _ _)
    have ht := ih (fun q hq => h q (List.mem_cons_of_mem _ hq))
    simp [collect, hp, ht, Except.map]

lemma collect_ok_length :
    ∀ (l : List (Except QueryError (List Series))) (r : List (List Series)),
      collect l = Except.ok r → r.length = l.length := by
  intro l
  induction l with
  | nil =>
    intro r h
    simp only [collect] at h
    cases h
    rfl
  | cons x rest ih =>
    intro r h
    cases x with
    | error e => simp [collect] at h
    | ok v =>
      cases hc : collect rest with
      | error e => simp [collect, hc, Except.map] at h
      | ok rr =>
        simp only [collect, hc, Except.map] at h
        cases h
        simp [ih rr hc]

lemma collect_error_of_mem (backend : String → Except QueryError (List Series)) :
    ∀ pods : List String, (∃ p ∈ pods, ∃ e, backend p = Except.error e) →
      ∃ e, collect (pods.map backend) = Except.error e ∧
        ∃ p ∈ pods, backend p = Except.error e := by
  intro pods
  induction pods with
  | nil =>
    rintro ⟨p, hp, _⟩
    cases hp
  | cons q rest ih =>
    rintro ⟨p, hp, e, he⟩
    cases hbq : backend q with
    | error eq => exact ⟨eq, by simp [collect, hbq], q, List.mem_cons_self _ _, hbq⟩
    | ok v =>
      have hpr : p ∈ rest := by
        rcases List.mem_cons.mp hp with h1 | h1
        · subst h1
          rw [hbq] at he
          cases he
        · exact h1
      obtain ⟨e', hce, p', hp', hbe⟩ := ih ⟨p, hpr, e, he⟩
      exact ⟨e', by simp [collect, hbq, hce, Except.map], p', List.mem_cons_of_mem _ hp', hbe⟩

lemma dictInsert_of_not_mem {α : Type} (l : List (String × α)) (k : String) (v : α)
    (h : ∀ p ∈ l, p.1 ≠ k) : dictInsert l k v = l ++ [(k, v)] := by
  unfold dictInsert
  rw [if_neg]
  simp only [List.any_eq_true, decide_eq_true_eq, not_exists]
  intro p hc
  exact h p hc.1 hc.2

lemma pyDict_append_of_nodup {α : Type} :
    ∀ (l acc : List (String × α)), (((acc ++ l).map Prod.fst).Nodup) →
      l.foldl (fun d p => dictInsert d p.1 p.2) acc = acc ++ l := by
  intro l
  induction l with
  | nil =>
    intro acc _
    simp
  | cons x xs ih =>
    intro acc h
    have hx : ∀ p ∈ acc, p.1 ≠ x.1 := by
      intro p hp hk
      rw [List.map_append] at h
      rcases (List.nodup_append.mp h) with ⟨_, _, hdisj⟩
      exact hdisj (List.mem_map_of_mem Prod.fst hp) (by simp [hk])
    simp only [List.foldl_cons]
    rw [dictInsert_of_not_mem _ _ _ hx]
    have := ih (acc ++ [x]) (by simpa using h)
    simpa using this

lemma pyDict_of_nodup {α : Type} (l : List (String × α)) (h : (l.map Prod.fst).Nodup) :
    pyDict l = l := by
  simpa using pyDict_append_of_nodup l [] (by simpa using h)

lemma zip_self_map (g : String → List Series) :
    ∀ l : List String, l.zip (l.map g) = l.map (fun p => (p, g p)) := by
  intro l
  induction l with
  | nil => rfl
  | cons x xs ih => simp [ih]

lemma filter_map_pair (g : String → List Series) :
    ∀ l : List String,
      (l.map (fun p => (p, g p))).filter (fun pr => pr.2 ≠ []) =
        (l.filter (fun p => g p ≠ [])).map (fun p => (p, g p)) := by
  intro l
  induction l with
  | nil => rfl
  | cons x xs ih =>
    simp only [decide_not] at ih
    by_cases h : g x = [] <;> simp [h, ih]

lemma extractAll_ok (vals : String → List ℚ) (resOf : String → List Series) :
    ∀ l : List String,
      (∀ p ∈ l, decimalList (seriesFirstValues (resOf p)) = Except.ok (vals p)) →
        extractAll (l.map (fun p => (p, resOf p))) = Except.ok (l.map (fun p => (p, vals p))) := by
  intro l
  induction l with
  | nil => intro _; rfl
  | cons x xs ih =>
    intro h
    have hx := h x (List.mem_cons_self _ _)
    have ht := ih (fun q hq => h q (List.mem_cons_of_mem _ hq))
    simp [extractAll, hx, ht, Except.map]

/-- If every per-pod query succeeded and every non-empty per-pod result
extracts cleanly, `runQueries` returns exactly the pods with a non-empty
result, in pod order, each paired with its extracted values. -/
lemma runQueries_result (mkQuery : String → String)
    (backend : String → Except QueryError (List Series))
    (pods : List String) (tf : Nat) (resOf : String → List Series) (vals : String → List ℚ)
    (hnodup : pods.Nodup)
    (hok : ∀ p ∈ pods, backend p = Except.ok (resOf p))
    (hvals : ∀ p ∈ pods, resOf p ≠ [] →
      decimalList (seriesFirstValues (resOf p)) = Except.ok (vals p)) :
    (runQueries mkQuery backend pods tf).1 =
      Except.ok ((pods.filter (fun p => resOf p ≠ [])).map (fun p => (p, vals p))) := by
  unfold runQueries
  rw [collect_map_ok backend resOf pods hok]
  by_cases hp : pods = []
  · subst hp
    simp [reshape, pyDict]
  · have hres : pods.map resOf ≠ [] := by
      simpa using hp
    simp only [reshape, if_neg hres]
    rw [zip_self_map resOf pods,
      pyDict_of_nodup _ (by simpa [List.map_map, Function.comp_def] using hnodup),
      filter_map_pair resOf pods,
      extractAll_ok vals resOf _ (fun q hq => by
        rcases List.mem_filter.mp hq with ⟨hq1, hq2⟩
        exact hvals q hq1 (by simpa using hq2))]
    simp only [Except.map]
    rw [pyDict_of_nodup _ (by
      simpa [List.map_map, Function.comp_def] using hnodup.filter
        (fun p => decide (resOf p ≠ [])))]

lemma decimalList_of_parses :
    ∀ (values : List (Int × String)) (qs : List ℚ),
      values.map (fun tv => pyDecimal tv.2) = qs.map some →
      decimalList values = Except.ok qs := by
  intro values
  induction values with
  | nil =>
    intro qs h
    cases qs with
    | nil => rfl
    | cons q qt => simp at h
  | cons tv rest ih =>
    intro qs h
    cases qs with
    | nil => simp at h
    | cons q qt =>
      simp only [List.map_cons, List.cons.injEq] at h
      simp [decimalList, h.1, ih qt h.2, Except.map]

/-! ### Concrete fixtures -/

/-- The workload of the spec's scenarios: namespace `ns1`, container `c1`,
pods `p1`, `p2`. -/
def wObject : K8sObjectData := ⟨"ns1", "c1", ["p1", "p2"]⟩

/-- Thirty days, in microseconds. -/
def periodThirtyDays : Nat := 2592000000000

/-- Thirty minutes (the default timeframe), in microseconds. -/
def timeframeThirtyMin : Nat := 1800000000

/-- Per-pod series where `p1` has one sample `0.5` and `p2` an empty
response. -/
def c1resOf (pod : String) : List Series :=
  if pod = "p1" then [⟨[(1, "0.5")]⟩] else []

/-- A backend answering every pod query successfully with `c1resOf`. -/
def c1backend (pod : String) : Except QueryError (List Series) :=
  Except.ok (c1resOf pod)

/-- Samples extracted from `c1resOf`. -/
def c1vals (pod : String) : List ℚ :=
  if pod = "p1" then [1/2] else []

/-- The spec's scenario: `p1` has samples `0.5`, `0.7`; `p2` an empty
response. -/
def c4resOf (pod : String) : List Series :=
  if pod = "p1" then [⟨[(1, "0.5"), (2, "0.7")]⟩] else []

/-- A backend answering every pod query successfully with `c4resOf`. -/
def c4backend (pod : String) : Except QueryError (List Series) :=
  Except.ok (c4resOf pod)

/-- Samples extracted from `c4resOf`. -/
def c4vals (pod : String) : List ℚ :=
  if pod = "p1" then [1/2, 7/10] else []

/-! ### Claims -/

/-- Claim C1, counterexample. The claim says the returned mapping has
exactly N keys equal to the input pod names and that a pod with an empty
backend response maps to an empty sequence rather than being absent. On
the workload `["p1", "p2"]` with `p2`'s response empty, `gather_data`
returns a mapping with the single key `p1`: the `if pod_result != []`
filter of line 160 drops `p2`, so the key set has 1 key, not 2, and `p2`
is absent. -/
theorem C1_counterexample :
    wObject.pods = ["p1", "p2"] ∧
    c1backend "p2" = Except.ok [] ∧
    (gather_data c1backend wObject ResourceType.CPU periodThirtyDays timeframeThirtyMin).1 =
      Except.ok [("p1", [(1 : ℚ)/2])] ∧
    "p2" ∉ [("p1", [(1 : ℚ)/2])].map Prod.fst := by
  refine ⟨rfl, rfl, ?_, by decide⟩
  simp [gather_data, runQueries, wObject, c1backend, c1resOf, collect, reshape, pyDict,
    dictInsert, extractAll, decimalList, seriesFirstValues, pyDecimal, parseDecimalPart,
    parseExponent, splitDigits, digitsToNat, powTen, Except.map]
  norm_num

/-- Claim C1, amended: for every workload with distinct pod names and a
successful gather call, the returned mapping has exactly the pods whose
backend response is non-empty as keys, in input order; a pod whose backend
response is empty is absent from the mapping (dropped by the
`if pod_result != []` filter of line 160), not mapped to an empty
sequence. -/
theorem C1_amended_keys (backend : String → Except QueryError (List Series))
    (object : K8sObjectData) (resource : ResourceType) (periodMicros timeframeMicros : Nat)
    (resOf : String → List Series) (vals : String → List ℚ)
    (hr : resource = ResourceType.CPU ∨ resource = ResourceType.Memory)
    (hnodup : object.pods.Nodup)
    (hok : ∀ p ∈ object.pods, backend p = Except.ok (resOf p))
    (hvals : ∀ p ∈ object.pods, resOf p ≠ [] →
      decimalList (seriesFirstValues (resOf p)) = Except.ok (vals p)) :
    (gather_data backend object resource periodMicros timeframeMicros).1 =
      Except.ok ((object.pods.filter (fun p => resOf p ≠ [])).map (fun p => (p, vals p))) ∧
    ((object.pods.filter (fun p => resOf p ≠ [])).map (fun p => (p, vals p))).map Prod.fst =
      object.pods.filter (fun p => resOf p ≠ []) := by
  constructor
  · rcases hr with h | h <;> subst h <;>
      exact runQueries_result _ backend object.pods _ resOf vals hnodup hok hvals
  · simp [List.map_map, Function.comp_def]

/-- Claim C1, witness: the amended statement evaluated on the concrete
two-pod workload where `p2`'s response is empty. -/
theorem C1_amended_witness :
    (gather_data c1backend wObject ResourceType.CPU periodThirtyDays timeframeThirtyMin).1 =
      Except.ok ((wObject.pods.filter (fun p => c1resOf p ≠ [])).map (fun p => (p, c1vals p))) ∧
    ((wObject.pods.filter (fun p => c1resOf p ≠ [])).map (fun p => (p, c1vals p))).map Prod.fst =
      wObject.pods.filter (fun p => c1resOf p ≠ []) :=
  C1_amended_keys c1backend wObject ResourceType.CPU periodThirtyDays timeframeThirtyMin
    c1resOf c1vals (Or.inl rfl) (by decide)
    (fun _ _ => rfl)
    (by
      intro p hp
      fin_cases hp
      · intro _
        simp [c1resOf, c1vals, decimalList, seriesFirstValues, pyDecimal, parseDecimalPart,
          parseExponent, splitDigits, digitsToNat, powTen, Except.map]
        norm_num
      · intro h
        exact absurd rfl h)

/-- Claim C4, counterexample. On the spec's own scenario (`p1` backend
values `[[t1,"0.5"],[t2,"0.7"]]`, `p2` empty), `gather_data` returns
`{"p1": [0.5, 0.7]}` — not the claimed `{"p1": [0.5, 0.7], "p2": []}`;
`p2` is dropped by the `if pod_result != []` filter of line 160. -/
theorem C4_counterexample :
    (gather_data c4backend wObject ResourceType.CPU periodThirtyDays timeframeThirtyMin).1 =
      Except.ok [("p1", [(1 : ℚ)/2, 7/10])] ∧
    (Except.ok [("p1", [(1 : ℚ)/2, 7/10])] :
        Except GatherError (List (String × List ℚ))) ≠
      Except.ok [("p1", [(1 : ℚ)/2, 7/10]), ("p2", [])] := by
  constructor
  · simp [gather_data, runQueries, wObject, c4backend, c4resOf, collect, reshape, pyDict,
      dictInsert, extractAll, decimalList, seriesFirstValues, pyDecimal, parseDecimalPart,
      parseExponent, splitDigits, digitsToNat, powTen, Except.map]
    norm_num
  · simp

/-- Claim C4, amended: for every pod whose per-pod backend result is
non-empty, the sample sequence gather returns for that pod equals exactly
(as exact decimals) the parsed value components of the `values` array of
the first returned series, in backend order, with every timestamp dropped
(`hvals` states that the value strings of the first series parse, in
order, to `vals p`); a pod whose result is empty is absent from the
mapping. -/
theorem C4_amended_values (backend : String → Except QueryError (List Series))
    (object : K8sObjectData) (resource : ResourceType) (periodMicros timeframeMicros : Nat)
    (resOf : String → List Series) (vals : String → List ℚ)
    (hr : resource = ResourceType.CPU ∨ resource = ResourceType.Memory)
    (hnodup : object.pods.Nodup)
    (hok : ∀ p ∈ object.pods, backend p = Except.ok (resOf p))
    (hvals : ∀ p ∈ object.pods, resOf p ≠ [] →
      (seriesFirstValues (resOf p)).map (fun tv => pyDecimal tv.2) = (vals p).map some)
    (p : String) (hp : p ∈ object.pods) (hne : resOf p ≠ []) :
    ∃ m, (gather_data backend object resource periodMicros timeframeMicros).1 = Except.ok m ∧
      (p, vals p) ∈ m := by
  have hvals' : ∀ q ∈ object.pods, resOf q ≠ [] →
      decimalList (seriesFirstValues (resOf q)) = Except.ok (vals q) :=
    fun q hq hne' => decimalList_of_parses _ _ (hvals q hq hne')
  have hmem : (p, vals p) ∈
      (object.pods.filter (fun q => resOf q ≠ [])).map (fun q => (q, vals q)) :=
    List.mem_map_of_mem _ (List.mem_filter.mpr ⟨hp, by simpa using hne⟩)
  rcases hr with h | h <;> subst h <;>
    exact ⟨_, runQueries_result _ backend object.pods _ resOf vals hnodup hok hvals', hmem⟩

/-- Claim C4, witness: the amended statement on the spec's scenario; `p1`'s
entry is `[0.5, 0.7]` as exact rationals. -/
theorem C4_amended_witness :
    ∃ m, (gather_data c4backend wObject ResourceType.CPU periodThirtyDays
        timeframeThirtyMin).1 = Except.ok m ∧ ("p1", c4vals "p1") ∈ m :=
  C4_amended_values c4backend wObject ResourceType.CPU periodThirtyDays timeframeThirtyMin
    c4resOf c4vals (Or.inl rfl) (by decide) (fun _ _ => rfl)
    (by
      intro p hp
      fin_cases hp
      · intro _
        simp [c4resOf, c4vals, seriesFirstValues, pyDecimal, parseDecimalPart,
          parseExponent, splitDigits, digitsToNat, powTen]
        norm_num
      · intro h
        exact absurd rfl h)
    "p1" (by decide) (by decide)

/-- Claim C2 — calling `gather_data` with a resource type that is neither
CPU nor Memory always fails with the `ValueError` of line 151 (the spec's
InvalidResourceType), for every workload, period and timeframe, and the
event trace is empty: no network call is issued. -/
theorem C2_invalid_resource (backend : String → Except QueryError (List Series))
    (object : K8sObjectData) (resource : ResourceType) (periodMicros timeframeMicros : Nat)
    (h1 : resource ≠ ResourceType.CPU) (h2 : resource ≠ ResourceType.Memory) :
    gather_data backend object resource periodMicros timeframeMicros =
      (Except.error (GatherError.invalidResourceType resource), []) := by
  cases resource with
  | CPU => exact absurd rfl h1
  | Memory => exact absurd rfl h2
  | Other n => rfl

/-- Claim C2, witness: a concrete unsupported resource type fails with
InvalidResourceType and an empty trace. -/
theorem C2_witness :
    gather_data c1backend wObject (ResourceType.Other "GPU") periodThirtyDays
        timeframeThirtyMin =
      (Except.error (GatherError.invalidResourceType (ResourceType.Other "GPU")), []) :=
  C2_invalid_resource c1backend wObject (ResourceType.Other "GPU") periodThirtyDays
    timeframeThirtyMin (by simp) (by simp)

/-- Claim C3 — for every workload whose pod list is empty, `gather_data`
with resource type CPU or Memory returns the empty mapping and the event
trace is empty: zero backend range queries are performed. -/
theorem C3_empty_pods (backend : String → Except QueryError (List Series))
    (object : K8sObjectData) (resource : ResourceType) (periodMicros timeframeMicros : Nat)
    (hpods : object.pods = [])
    (hr : resource = ResourceType.CPU ∨ resource = ResourceType.Memory) :
    gather_data backend object resource periodMicros timeframeMicros = (Except.ok [], []) := by
  rcases hr with h | h <;> subst h <;>
    simp [gather_data, runQueries, hpods, collect, reshape, pyDict]

/-- Claim C3, witness: a concrete pod-less workload yields the empty
mapping and an empty trace. -/
theorem C3_witness :
    gather_data c1backend ⟨"ns1", "c1", []⟩ ResourceType.CPU periodThirtyDays
        timeframeThirtyMin = (Except.ok [], []) :=
  C3_empty_pods c1backend ⟨"ns1", "c1", []⟩ ResourceType.CPU periodThirtyDays
    timeframeThirtyMin rfl (Or.inl rfl)

/-- Claim C5 — if the entire batch result of the per-pod queries is
structurally empty (`asyncio.gather` returned `[]`), `gather_data` returns
a mapping in which every pod of `object.pods` maps to an empty sequence
(the early return of lines 153-154), and no per-pod value extraction is
attempted: the result is produced before the extraction comprehension of
lines 157-161 runs. -/
theorem C5_empty_batch (backend : String → Except QueryError (List Series))
    (object : K8sObjectData) (resource : ResourceType) (periodMicros timeframeMicros : Nat)
    (hr : resource = ResourceType.CPU ∨ resource = ResourceType.Memory)
    (hempty : collect (object.pods.map backend) = Except.ok []) :
    (gather_data backend object resource periodMicros timeframeMicros).1 =
      Except.ok (object.pods.map (fun p => (p, ([] : List ℚ)))) := by
  have hlen := collect_ok_length _ _ hempty
  have hpods : object.pods = [] := by
    have hl : object.pods.length = 0 := by simpa using hlen.symm
    exact List.length_eq_zero.mp hl
  rcases hr with h | h <;> subst h <;>
    simp [gather_data, runQueries, hpods, collect, reshape, pyDict]

/-- Claim C5, witness: the empty batch (which `asyncio.gather` produces
exactly when the pod list is empty) maps every pod to an empty sequence. -/
theorem C5_witness :
    (gather_data c1backend ⟨"ns1", "c1", []⟩ ResourceType.Memory periodThirtyDays
        timeframeThirtyMin).1 =
      Except.ok (([] : List String).map (fun p => (p, ([] : List ℚ)))) :=
  C5_empty_batch c1backend ⟨"ns1", "c1", []⟩ ResourceType.Memory periodThirtyDays
    timeframeThirtyMin (Or.inr rfl) rfl

/-- A backend whose query for `p2` times out. -/
def c9backend (pod : String) : Except QueryError (List Series) :=
  if pod = "p2" then .error .timeout else .ok []

/-- Claim C9 — whenever at least one per-pod range query fails, the whole
`gather_data` call fails: it raises the propagated query error
(`asyncio.gather` re-raises it) and returns no mapping at all — the result
is an error carrying one of the failing pods' errors, never a partial
mapping. -/
theorem C9_no_partial_results (backend : String → Except QueryError (List Series))
    (object : K8sObjectData) (resource : ResourceType) (periodMicros timeframeMicros : Nat)
    (hr : resource = ResourceType.CPU ∨ resource = ResourceType.Memory)
    (hfail : ∃ p ∈ object.pods, ∃ e, backend p = Except.error e) :
    ∃ e, (gather_data backend object resource periodMicros timeframeMicros).1 =
        Except.error (GatherError.queryFailure e) ∧
      ∃ p ∈ object.pods, backend p = Except.error e := by
  obtain ⟨e, hce, p, hp, hbe⟩ := collect_error_of_mem backend object.pods hfail
  refine ⟨e, ?_, p, hp, hbe⟩
  rcases hr with h | h <;> subst h <;> simp [gather_data, runQueries, hce]

/-- Claim C9, witness: with `p2`'s query timing out, the whole call fails
with that timeout. -/
theorem C9_witness :
    ∃ e, (gather_data c9backend wObject ResourceType.CPU periodThirtyDays
        timeframeThirtyMin).1 = Except.error (GatherError.queryFailure e) ∧
      ∃ p ∈ wObject.pods, c9backend p = Except.error e :=
  C9_no_partial_results c9backend wObject ResourceType.CPU periodThirtyDays timeframeThirtyMin
    (Or.inl rfl) ⟨"p2", by decide, QueryError.timeout, rfl⟩

/-- The event trace of `runQueries` is one range query per pod, in pod
order, independent of the outcomes. -/
lemma runQueries_snd (mkQuery : String → String)
    (backend : String → Except QueryError (List Series)) (pods : List String) (tf : Nat) :
    (runQueries mkQuery backend pods tf).2 =
      pods.map (fun pod => Event.rangeQuery (mkQuery pod) (stepStr tf)) := by
  unfold runQueries
  cases hc : collect (pods.map backend) <;> simp [hc]

/-- Claim C6 — the step parameter sent with each range query is the string
`floor(timeframe_in_seconds / 60)` followed by `"m"` (here
`timeframeMicros / 60000000` is exactly that floor); in particular every
timeframe strictly under one minute yields the zero step `"0m"`; and every
event `gather_data` emits is a range query carrying this step. -/
theorem C6_step_truncation (timeframeMicros : Nat) :
    stepStr timeframeMicros = toString (timeframeMicros / 60000000) ++ "m" ∧
    (timeframeMicros < 60000000 → stepStr timeframeMicros = "0m") ∧
    ∀ (backend : String → Except QueryError (List Series)) (object : K8sObjectData)
      (resource : ResourceType) (periodMicros : Nat),
      ∀ ev ∈ (gather_data backend object resource periodMicros timeframeMicros).2,
        ∃ q, ev = Event.rangeQuery q (stepStr timeframeMicros) := by
  have hdiv : timeframeMicros / 1000000 / 60 = timeframeMicros / 60000000 := by
    rw [Nat.div_div_eq_div_mul]
  refine ⟨?_, ?_, ?_⟩
  · unfold stepStr
    rw [hdiv]
  · intro h
    unfold stepStr
    rw [hdiv, Nat.div_eq_of_lt h]
    rfl
  · intro backend object resource periodMicros ev hev
    cases resource with
    | Other n => cases hev
    | CPU =>
      rw [show (gather_data backend object ResourceType.CPU periodMicros timeframeMicros).2 =
            (runQueries (cpuQuery object) backend object.pods timeframeMicros).2 from rfl,
        runQueries_snd] at hev
      obtain ⟨p, _, hev⟩ := List.mem_map.mp hev
      exact ⟨cpuQuery object p, hev.symm⟩
    | Memory =>
      rw [show (gather_data backend object ResourceType.Memory periodMicros timeframeMicros).2 =
            (runQueries (memoryQuery object) backend object.pods timeframeMicros).2 from rfl,
        runQueries_snd] at hev
      obtain ⟨p, _, hev⟩ := List.mem_map.mp hev
      exact ⟨memoryQuery object p, hev.symm⟩

/-- Claim C6, witness: a 30-second timeframe yields the zero step `"0m"`;
the default 30-minute timeframe yields `toString 30 ++ "m"`; and the first
event of the scenario trace carries the step. -/
theorem C6_witness :
    stepStr 30000000 = "0m" ∧
    stepStr 1800000000 = toString (1800000000 / 60000000) ++ "m" ∧
    ∃ q, Event.rangeQuery (cpuQuery wObject "p1") (stepStr 1800000000) =
      Event.rangeQuery q (stepStr 1800000000) :=
  ⟨(C6_step_truncation 30000000).2.1 (by decide),
    (C6_step_truncation 1800000000).1,
    (C6_step_truncation 1800000000).2.2 c1backend wObject ResourceType.CPU periodThirtyDays
      (Event.rangeQuery (cpuQuery wObject "p1") (stepStr 1800000000))
      (by
        rw [show (gather_data c1backend wObject ResourceType.CPU periodThirtyDays
              1800000000).2 =
            (runQueries (cpuQuery wObject) c1backend wObject.pods 1800000000).2 from rfl,
          runQueries_snd]
        exact List.mem_map_of_mem _ (by decide))⟩

/-- Claim C7 — at construction the backend URL used is the explicitly
configured URL when one is set (truthy), otherwise the service-discovery
URL; and when neither yields a URL, construction fails with
`PrometheusNotFound` (with no cause attached) and the event trace is empty:
the failure happens before any HTTP session is created. -/
theorem C7_url_resolution (config : Config) (cluster discovered : Option String)
    (bearerHeaders : List (String × String)) (conn : ConnOutcome) :
    (truthyStr config.prometheus_url = true →
      resolvedUrl config discovered = config.prometheus_url) ∧
    (truthyStr config.prometheus_url = false →
      resolvedUrl config discovered = discovered) ∧
    (truthyStr (resolvedUrl config discovered) = false →
      clientInit config cluster discovered bearerHeaders conn =
        (Except.error (InitError.prometheusNotFound none), []) ∧
      InitEvent.sessionCreated ∉ (clientInit config cluster discovered bearerHeaders conn).2) := by
  refine ⟨?_, ?_, ?_⟩
  · intro h
    simp [resolvedUrl, h]
  · intro h
    simp [resolvedUrl, h]
  · intro h
    constructor
    · simp [clientInit, h]
    · simp [clientInit, h]

/-- Claim C7, witness: an explicit URL wins over discovery; with no
explicit URL the discovered one is used; with neither, construction fails
with `PrometheusNotFound` before a session exists. -/
theorem C7_witness :
    resolvedUrl ⟨some "http://explicit", none, false, true⟩ (some "http://disc") =
      some "http://explicit" ∧
    resolvedUrl ⟨none, none, false, true⟩ (some "http://disc") = some "http://disc" ∧
    clientInit ⟨none, none, false, true⟩ none none [] (ConnOutcome.response 200) =
      (Except.error (InitError.prometheusNotFound none), []) :=
  ⟨(C7_url_resolution ⟨some "http://explicit", none, false, true⟩ none (some "http://disc") []
      (ConnOutcome.response 200)).1 (by decide),
    (C7_url_resolution ⟨none, none, false, true⟩ none (some "http://disc") []
      (ConnOutcome.response 200)).2.1 rfl,
    ((C7_url_resolution ⟨none, none, false, true⟩ none none []
      (ConnOutcome.response 200)).2.2 rfl).1⟩

/-- Claim C8, counterexample. The claim says any non-success HTTP status of
the liveness probe converts into a `PrometheusNotFound` failure that
prevents construction. HTTP 304 is not a success status (it is not in
2xx), yet `requests`' `raise_for_status` raises only for 400-599, so the
check passes and construction completes. -/
theorem C8_counterexample :
    ¬ (200 ≤ 304 ∧ 304 < 300) ∧
    checkPrometheusConnection (ConnOutcome.response 304) = Except.ok () ∧
    (clientInit ⟨some "http://prom", some "Bearer tok", true, true⟩ none none []
        (ConnOutcome.response 304)).1 =
      Except.ok ⟨"http://prom", [("Authorization", "Bearer tok")], true⟩ :=
  ⟨by decide, rfl, rfl⟩

/-- Claim C8, amended: the liveness check converts any connection error,
and any HTTP client-error or server-error status (400 ≤ status < 600, the
statuses `raise_for_status` raises for), into `PrometheusNotFound` carrying
the original error as its cause; and when the check fails (the URL having
resolved and the auth headers having been built), construction fails with
that very error. -/
theorem C8_liveness_conversion (config : Config) (cluster discovered : Option String)
    (bearerHeaders : List (String × String)) (conn : ConnOutcome) :
    (∀ m, conn = ConnOutcome.connError m →
      checkPrometheusConnection conn =
        Except.error (InitError.prometheusNotFound (some (CheckCause.connectionError m)))) ∧
    (∀ s, conn = ConnOutcome.response s → 400 ≤ s → s < 600 →
      checkPrometheusConnection conn =
        Except.error (InitError.prometheusNotFound (some (CheckCause.httpError s)))) ∧
    (∀ e, checkPrometheusConnection conn = Except.error e →
      truthyStr (resolvedUrl config discovered) = true →
      ∀ headers, buildHeaders config cluster.isSome bearerHeaders = Except.ok headers →
        (clientInit config cluster discovered bearerHeaders conn).1 = Except.error e) := by
  refine ⟨?_, ?_, ?_⟩
  · rintro m rfl
    rfl
  · rintro s rfl h4 h6
    simp [checkPrometheusConnection, h4, h6]
  · intro e hce hurl headers hh
    simp [clientInit, hurl, hh, hce]

/-- Claim C8, witness: HTTP 500 on the probe makes the check fail with
`PrometheusNotFound` caused by the 500, and construction fails with it. -/
theorem C8_witness :
    checkPrometheusConnection (ConnOutcome.response 500) =
      Except.error (InitError.prometheusNotFound (some (CheckCause.httpError 500))) ∧
    (clientInit ⟨some "http://prom", some "Bearer tok", true, true⟩ none none []
        (ConnOutcome.response 500)).1 =
      Except.error (InitError.prometheusNotFound (some (CheckCause.httpError 500))) :=
  ⟨(C8_liveness_conversion ⟨some "http://prom", some "Bearer tok", true, true⟩ none none []
        (ConnOutcome.response 500)).2.1 500 rfl (by decide) (by decide),
    (C8_liveness_conversion ⟨some "http://prom", some "Bearer tok", true, true⟩ none none []
        (ConnOutcome.response 500)).2.2 _
      ((C8_liveness_conversion ⟨some "http://prom", some "Bearer tok", true, true⟩ none none []
        (ConnOutcome.response 500)).2.1 500 rfl (by decide) (by decide))
      rfl [("Authorization", "Bearer tok")] rfl⟩

/-- Claim C10 — with no explicit auth header configured (falsy), the
in-cluster flag false and no cluster name supplied (so `self.api_client`
is `None`), a construction that gets past URL resolution does not fall
through to a "no auth" case: it fails with the `AttributeError` raised by
`None.update_params_for_auth` at line 88. -/
theorem C10_attribute_error (config : Config) (discovered : Option String)
    (bearerHeaders : List (String × String)) (conn : ConnOutcome)
    (hauth : truthyStr config.prometheus_auth_header = false)
    (hin : config.inside_cluster = false)
    (hurl : truthyStr (resolvedUrl config discovered) = true) :
    (clientInit config none discovered bearerHeaders conn).1 =
      Except.error InitError.attributeErrorNone := by
  simp [clientInit, buildHeaders, hauth, hin, hurl]

/-- Claim C10, witness: explicit URL, no auth header, outside the cluster,
no cluster name — construction crashes with the attribute error. -/
theorem C10_witness :
    (clientInit ⟨some "http://prom", none, false, false⟩ none none []
        (ConnOutcome.response 200)).1 =
      Except.error InitError.attributeErrorNone :=
  C10_attribute_error ⟨some "http://prom", none, false, false⟩ none []
    (ConnOutcome.response 200) rfl rfl rfl

end KRR
